import Mathlib

/-!
Verification development for the pdf-redactor decision engine
(`src/pdf_redactor.py`).  The Python code is shallowly embedded: regular
expressions become an explicit `RE` syntax with a prioritized backtracking
matcher mirroring CPython `re` semantics (greedy repetition, ordered
alternation, `\b` word boundaries, `re.match` anchoring vs `re.search`
scanning, IGNORECASE), and the detection / classification / planning /
verification functions of the `PDFRedactor` class become pure Lean
functions over page text.  External collaborators (the PDF document model,
OCR, the langdetect library) are modelled per the code that calls them.
-/

set_option maxHeartbeats 4000000
set_option maxRecDepth 10000

namespace PdfRedactor

/-- Python whitespace characters: the `\s` class and `str.strip` set
(ASCII range, which covers every string manipulated by the claims). -/
def isPySpace (c : Char) : Bool :=
  c = ' ' || c = '\t' || c = '\n' || c = '\r' || c = '\x0b' || c = '\x0c'

/-- Python word characters, ASCII fragment of `\w`; used by `\b`. -/
def isPyWord (c : Char) : Bool :=
  ('a' ≤ c && c ≤ 'z') || ('A' ≤ c && c ≤ 'Z') || ('0' ≤ c && c ≤ '9') || c = '_'

/-- Python `str.strip()`: drop leading and trailing whitespace. -/
def pyStrip (s : String) : String :=
  String.mk (((s.toList.dropWhile isPySpace).reverse.dropWhile isPySpace).reverse)

/-- Regular-expression syntax covering the fragment the source patterns use:
character classes (lists of inclusive ranges, optionally negated), sequence,
ordered alternation, bounded `{lo,hi}` and unbounded `*` greedy repetition,
capture groups, `\b` word boundaries and the `$` end anchor. -/
inductive RE where
  | eps : RE
  | cls : List (Char × Char) → Bool → RE
  | seq : RE → RE → RE
  | alt : RE → RE → RE
  | rep : RE → Nat → Nat → RE
  | star : RE → RE
  | grp : Nat → RE → RE
  | wordB : RE
  | lineEnd : RE
deriving Repr

/-- Matcher state: the character just before the current position (needed by
`\b`), the remaining input, and the capture groups recorded so far. -/
structure MSt where
  prev : Option Char
  rest : List Char
  caps : List (Nat × List Char)
deriving Repr

/-- Character-class membership.  Under IGNORECASE (`ci`) a character also
matches when its case-swapped ASCII form lies in the class, mirroring
CPython's behaviour on the ASCII inputs of this development. -/
def clsHit (ci : Bool) (ranges : List (Char × Char)) (neg : Bool) (c : Char) : Bool :=
  let inr := fun ch => ranges.any (fun r => decide (r.1 ≤ ch) && decide (ch ≤ r.2))
  let hit := inr c || (ci && (inr c.toLower || inr c.toUpper))
  if neg then !hit else hit

/-- Greedy bounded repetition `{lo,hi}`: longer attempts are tried first, as
in CPython. -/
def runRep (step : MSt → List MSt) : Nat → Nat → MSt → List MSt
  | 0, 0, st => [st]
  | _ + 1, 0, _ => []
  | 0, hi + 1, st => ((step st).flatMap (runRep step 0 hi)) ++ [st]
  | lo + 1, hi + 1, st => (step st).flatMap (runRep step lo hi)

/-- Greedy unbounded repetition, fuelled by the input length; only
progress-making iterations recurse, which agrees with CPython on the
character-consuming bodies used by the source patterns. -/
def runStar (step : MSt → List MSt) : Nat → MSt → List MSt
  | 0, st => [st]
  | fuel + 1, st =>
    let nexts := (step st).filter (fun s2 => s2.rest.length < st.rest.length)
    (nexts.flatMap (runStar step fuel)) ++ [st]

/-- Prioritized matcher: all ways the expression can match a prefix of the
state's input, best (CPython-first) candidate first. -/
def runRE (ci : Bool) : RE → MSt → List MSt
  | .eps, st => [st]
  | .cls ranges neg, st =>
    match st.rest with
    | [] => []
    | c :: cs => if clsHit ci ranges neg c then [⟨some c, cs, st.caps⟩] else []
  | .seq a b, st => (runRE ci a st).flatMap (runRE ci b)
  | .alt a b, st => runRE ci a st ++ runRE ci b st
  | .rep a lo hi, st => runRep (runRE ci a) lo hi st
  | .star a, st => runStar (runRE ci a) st.rest.length st
  | .grp i a, st =>
    (runRE ci a st).map (fun s2 =>
      { s2 with caps := (i, st.rest.take (st.rest.length - s2.rest.length)) :: s2.caps })
  | .wordB, st =>
    let left := match st.prev with | none => false | some c => isPyWord c
    let right := match st.rest with | [] => false | c :: _ => isPyWord c
    if left ≠ right then [st] else []
  | .lineEnd, st =>
    match st.rest with
    | [] => [st]
    | [c] => if c = '\n' then [st] else []
    | _ => []

/-- Anchored match attempt at the current position; CPython commits to the
highest-priority alternative, i.e. the head of the prioritized list. -/
def tryMatchAt (ci : Bool) (re : RE) (prev : Option Char) (s : List Char) : Option MSt :=
  (runRE ci re ⟨prev, s, []⟩).head?

/-- Python `re.match(p, s)` viewed as a Bool: anchored at the start. -/
def reMatchB (ci : Bool) (re : RE) (s : String) : Bool :=
  (tryMatchAt ci re none s.toList).isSome

/-- Scanning worker for `re.search`. -/
def reSearchAux (ci : Bool) (re : RE) : Option Char → List Char → Bool
  | prev, [] => (tryMatchAt ci re prev []).isSome
  | prev, c :: cs =>
    (tryMatchAt ci re prev (c :: cs)).isSome || reSearchAux ci re (some c) cs

/-- Python `re.search(p, s)` viewed as a Bool. -/
def reSearchB (ci : Bool) (re : RE) (s : String) : Bool :=
  reSearchAux ci re none s.toList

/-- One element of a `re.finditer` run: full matched text plus captures. -/
structure PyMatch where
  full : String
  caps : List (Nat × String)
deriving Repr, DecidableEq

/-- Python `match.group(i)`, empty string when the group did not take part. -/
def capLookup (caps : List (Nat × String)) (i : Nat) : String :=
  match caps.lookup i with
  | some s => s
  | none => ""

/-- Iteration worker for `re.finditer`: scan left to right, commit to the
leftmost match, continue after its end (advance one character on an empty
match), fuelled by the input length. -/
def finditerAux (ci : Bool) (re : RE) : Nat → Option Char → List Char → List PyMatch
  | 0, _, _ => []
  | fuel + 1, prev, s =>
    match tryMatchAt ci re prev s with
    | some st =>
      let n := s.length - st.rest.length
      let m : PyMatch := ⟨String.mk (s.take n), st.caps.map (fun p => (p.1, String.mk p.2))⟩
      if n = 0 then
        match s with
        | [] => [m]
        | c :: cs => m :: finditerAux ci re fuel (some c) cs
      else
        m :: finditerAux ci re fuel ((s.take n).getLastD (prev.getD ' ')) (s.drop n)
    | none =>
      match s with
      | [] => []
      | c :: cs => finditerAux ci re fuel (some c) cs

/-- Python `re.finditer(p, s)` as a list of matches. -/
def reFinditer (ci : Bool) (re : RE) (s : String) : List PyMatch :=
  finditerAux ci re (s.toList.length + 1) none s.toList

/-! Combinators for writing the source's patterns down compactly. -/

/-- Single literal character (case handling comes from the `ci` flag). -/
def rchar (c : Char) : RE := RE.cls [(c, c)] false

/-- Literal string. -/
def rstr (s : String) : RE := (s.toList.map rchar).foldr RE.seq RE.eps

/-- Sequence of a list of expressions. -/
def rcat (l : List RE) : RE := l.foldr RE.seq RE.eps

/-- Ordered alternation of a list of expressions (empty list never matches). -/
def ralts : List RE → RE
  | [] => RE.cls [] false
  | [r] => r
  | r :: rs => RE.alt r (ralts rs)

/-- `r?` -/
def ropt (r : RE) : RE := RE.rep r 0 1

/-- `r+` -/
def rplus (r : RE) : RE := RE.seq r (RE.star r)

/-- `r{lo,}` -/
def rmin (r : RE) (lo : Nat) : RE := RE.seq (RE.rep r lo lo) (RE.star r)

/-- `\d` -/
def dDigit : RE := RE.cls [('0', '9')] false

/-- `\s` -/
def dWs : RE := RE.cls
  [(' ', ' '), ('\t', '\t'), ('\n', '\n'), ('\r', '\r'), ('\x0b', '\x0b'), ('\x0c', '\x0c')] false

/-- `.` (anything but a newline) -/
def dDot : RE := RE.cls [('\n', '\n')] true

/-- `[A-Z]` -/
def dUpper : RE := RE.cls [('A', 'Z')] false

/-- `[a-z]` -/
def dLower : RE := RE.cls [('a', 'z')] false

/-- `[A-Za-z]` -/
def dAlpha : RE := RE.cls [('A', 'Z'), ('a', 'z')] false

/-- `[A-Z0-9]` -/
def dUpDig : RE := RE.cls [('A', 'Z'), ('0', '9')] false

/-- `[0-9A-Z]`, `[A-Z0-9]` interchangeable. -/
def dDigUp : RE := RE.cls [('0', '9'), ('A', 'Z')] false

/-- Ranges of the `\s` class, shared by several composite classes. -/
def wsRanges : List (Char × Char) :=
  [(' ', ' '), ('\t', '\t'), ('\n', '\n'), ('\r', '\r'), ('\x0b', '\x0b'), ('\x0c', '\x0c')]

/-- `[-.\s]` -/
def dashDotWs : RE := RE.cls ([('-', '-'), ('.', '.')] ++ wsRanges) false

/-- `[-\s]` -/
def dashWs : RE := RE.cls ([('-', '-')] ++ wsRanges) false

/-- `[- ]` -/
def dashSpace : RE := RE.cls [('-', '-'), (' ', ' ')] false

/-- Class of dash or slash (written with a bracket class in the source). -/
def dashSlash : RE := RE.cls [('-', '-'), ('/', '/')] false

/-- `[:.\s]` -/
def colDotWs : RE := RE.cls ([(':', ':'), ('.', '.')] ++ wsRanges) false

/-- `\s*` -/
def wsStar : RE := RE.star dWs

/-- `\s+` -/
def wsPlus : RE := rplus dWs

/-- `\s*:?\s*` , the label separator of the sensitive patterns. -/
def sepOptColon : RE := rcat [wsStar, ropt (rchar ':'), wsStar]

/-- `\d{n}` -/
def dN (n : Nat) : RE := RE.rep dDigit n n

/-- `[a-zA-Z0-9._%+-]` (local part of the email patterns). -/
def emailLocal : RE :=
  RE.cls [('a', 'z'), ('A', 'Z'), ('0', '9'), ('.', '.'), ('_', '_'), ('%', '%'), ('+', '+'), ('-', '-')] false

/-- `[a-zA-Z0-9.-]` (domain part of the email patterns). -/
def emailDomain : RE :=
  RE.cls [('a', 'z'), ('A', 'Z'), ('0', '9'), ('.', '.'), ('-', '-')] false

/-- `[a-zA-Z0-9._%+-]+@[a-zA-Z0-9.-]+\.[a-zA-Z]{2,}` -/
def emailCore : RE :=
  rcat [rplus emailLocal, rchar '@', rplus emailDomain, rchar '.', rmin dAlpha 2]

/-- `(?:\d{4}[- ]?){3}\d{4}` (grouped credit-card shape). -/
def cc4Groups : RE := rcat [RE.rep (rcat [dN 4, ropt dashSpace]) 3 3, dN 4]

/-- Configuration record of `RedactionConfig` in `pdf_redactor.py` (the file
path fields are carried as plain strings; nothing in the embedded behaviour
reads them). -/
structure RedactionConfig where
  redact_phone : Bool
  redact_email : Bool
  redact_iban : Bool
  redact_cc : Bool
  redact_cvv : Bool
  redact_cc_expiration : Bool
  redact_bic : Bool
  redact_bic_label : Bool
  redact_images : Bool
  preserve_headings : Bool
  redact_aadhaar : Bool
  redact_pan : Bool
  custom_mask : Option String
  input_pdf : String
  output_pdf : String
  report_only : Bool
  verify : Bool
  use_blur : Bool := false
  color : String := "black"
  language : String := "auto"
deriving Repr, DecidableEq

/-- The `CVV\s*:?\s*\d{3,4}`-shaped entries of the sensitive list. -/
def cvvLbl (lbl : String) : RE := rcat [rstr lbl, sepOptColon, RE.rep dDigit 3 4]

/-- The `Expiry`-labelled entries: label, optional colon, one or two digits,
dash-or-slash, two to four digits. -/
def expLbl (lbl : String) : RE :=
  rcat [rstr lbl, sepOptColon, RE.rep dDigit 1 2, dashSlash, RE.rep dDigit 2 4]

/-- The `Phone\s*:?\s*(?:\+\d{1,3}[-\.\s]?)?\(?\d{3}\)?[-\.\s]?\d{3}[-\.\s]?\d{4}`
entries; the core after the label is shared with the raw phone shapes. -/
def phoneTail : RE :=
  rcat [ropt (rcat [rchar '+', RE.rep dDigit 1 3, ropt dashDotWs]),
        ropt (rchar '('), dN 3, ropt (rchar ')'), ropt dashDotWs, dN 3, ropt dashDotWs, dN 4]

/-- Labelled phone entry. -/
def phoneLbl (lbl : String) : RE := rcat [rstr lbl, sepOptColon, phoneTail]

/-- Labelled email entry (`Email\s*:?\s*` + email core). -/
def emailLbl (lbl : String) : RE := rcat [rstr lbl, sepOptColon, emailCore]

/-- The `sensitive_patterns` list built inside `is_heading` (source order
preserved); a match against any of these forces redaction. -/
def sensitive_patterns : List RE :=
  [ cvvLbl "CVV", cvvLbl "CVC", cvvLbl "CV2", cvvLbl "Security Code", cvvLbl "CSC", cvvLbl "CID",
    rcat [RE.rep dDigit 3 4, wsPlus, rchar '(',
          ralts [rstr "CVV", rstr "CVC", rstr "CSC", rstr "CID"], rchar ')'],
    cc4Groups,
    rcat [RE.wordB, dN 16, RE.wordB],
    rcat [RE.wordB, dN 13, RE.wordB],
    rcat [RE.wordB, dN 15, RE.wordB],
    rcat [RE.wordB, rchar '4', dN 12, ropt (dN 3), RE.wordB],
    rcat [RE.wordB, rchar '5', RE.cls [('1', '5')] false, dN 14, RE.wordB],
    rcat [RE.wordB, rchar '3', RE.cls [('4', '4'), ('7', '7')] false, dN 13, RE.wordB],
    rcat [RE.wordB, rchar '3',
          RE.alt (rcat [rchar '0', RE.cls [('0', '5')] false])
                 (rcat [RE.cls [('6', '6'), ('8', '8')] false, dDigit]),
          dN 11, RE.wordB],
    rcat [RE.wordB, rchar '6', RE.alt (rstr "011") (rcat [rchar '5', dN 2]), dN 12, RE.wordB],
    rcat [rstr "IBAN", sepOptColon, RE.rep dUpper 2 2, dN 2, RE.rep dDigUp 10 30],
    rcat [rstr "BIC", sepOptColon, RE.rep dUpDig 8 11],
    rcat [rstr "SWIFT", sepOptColon, RE.rep dUpDig 8 11],
    rcat [rstr "Account", wsStar, ropt (ralts [rstr "Number", rstr "No", rchar '#']),
          wsStar, ropt (rchar ':'), wsStar, rplus dDigit],
    rcat [rstr "Routing", wsStar, ropt (ralts [rstr "Number", rstr "No", rchar '#']),
          wsStar, ropt (rchar ':'), wsStar, rplus dDigit],
    rcat [rstr "Sort", wsStar, rstr "Code", sepOptColon, dN 2, ropt (rchar '-'), dN 2,
          ropt (rchar '-'), dN 2],
    expLbl "Expiry", expLbl "Expiration", expLbl "Exp", expLbl "Valid Thru", expLbl "Exp. Date",
    rcat [RE.alt (rcat [rchar '0', RE.cls [('1', '9')] false])
                 (rcat [rchar '1', RE.cls [('0', '2')] false]),
          dashSlash, RE.alt (dN 2) (rcat [rchar '2', dN 3])],
    rcat [rstr "SSN", sepOptColon, dN 3, ropt (rchar '-'), dN 2, ropt (rchar '-'), dN 4],
    rcat [rstr "Social Security", sepOptColon, dN 3, ropt (rchar '-'), dN 2, ropt (rchar '-'), dN 4],
    rcat [RE.wordB, dN 3, ropt (rchar '-'), dN 2, ropt (rchar '-'), dN 4, RE.wordB],
    rcat [rstr "Tax ID", sepOptColon, dN 2, ropt (rchar '-'), dN 7],
    rcat [rstr "EIN", sepOptColon, dN 2, ropt (rchar '-'), dN 7],
    rcat [rstr "Passport", sepOptColon, RE.rep dUpDig 6 9],
    rcat [rstr "Driver", ropt (rchar (Char.ofNat 39)), ropt (rchar 's'), wsStar,
          rstr "License", sepOptColon, RE.rep dUpDig 6 12],
    rcat [rstr "ID", wsStar, ropt (ralts [rstr "Number", rstr "No", rchar '#']),
          wsStar, ropt (rchar ':'), wsStar, RE.rep dUpDig 6 12],
    phoneLbl "Phone", phoneLbl "Mobile", phoneLbl "Cell", phoneLbl "Telephone", phoneLbl "Tel",
    rcat [RE.wordB, ropt (rchar '+'), RE.rep dDigit 1 3, ropt dashDotWs, ropt (rchar '('),
          dN 3, ropt (rchar ')'), ropt dashDotWs, dN 3, ropt dashDotWs, dN 4, RE.wordB],
    rcat [RE.wordB, dN 3, ropt dashDotWs, dN 3, ropt dashDotWs, dN 4, RE.wordB],
    emailLbl "Email", emailLbl "E-mail",
    rcat [RE.wordB, emailCore, RE.wordB],
    rcat [RE.wordB, rplus emailLocal, wsStar, RE.alt (rchar '@') (rstr "[at]"), wsStar,
          rplus emailDomain, wsStar, RE.alt (rchar '.') (rstr "[dot]"), wsStar,
          rmin dAlpha 2, RE.wordB] ]

/-- `[\s.-]` of the French phone patterns. -/
def wsDotDash : RE := RE.cls (wsRanges ++ [('.', '.'), ('-', '-')]) false

/-- French phone core `(?:(?:\+|00)33|0)\s*[1-9](?:[\s.-]*\d{2}){4}`. -/
def frPhoneCore : RE :=
  rcat [RE.alt (rcat [RE.alt (rchar '+') (rstr "00"), rstr "33"]) (rchar '0'),
        wsStar, RE.cls [('1', '9')] false,
        RE.rep (rcat [RE.star wsDotDash, dN 2]) 4 4]

/-- Spanish phone core `(?:\+34|0034|34)?[\s-]?[6789]\d{8}`. -/
def esPhoneCore : RE :=
  rcat [ropt (ralts [rstr "+34", rstr "0034", rstr "34"]), ropt dashWs,
        RE.cls [('6', '9')] false, dN 8]

/-- German phone core `(?:\+49|0049|0)?[\s-]?[1-9]\d{1,4}[\s-]?\d{4,8}`. -/
def dePhoneCore : RE :=
  rcat [ropt (ralts [rstr "+49", rstr "0049", rchar '0']), ropt dashWs,
        RE.cls [('1', '9')] false, RE.rep dDigit 1 4, ropt dashWs, RE.rep dDigit 4 8]

/-- The `language_sensitive_patterns` dictionary of `is_heading`: extra
always-redact patterns for fr / es / de, empty for every other code. -/
def language_sensitive_patterns (language_code : String) : List RE :=
  if language_code = "fr" then
    [ rcat [rstr "Téléphone", sepOptColon, frPhoneCore],
      rcat [rstr "Portable", sepOptColon, frPhoneCore],
      rcat [rstr "Courriel", sepOptColon, emailCore],
      rcat [rstr "E-mail", sepOptColon, emailCore],
      rcat [rstr "Numéro de Sécurité Sociale", sepOptColon, dDigit, ropt dWs, dN 2, ropt dWs,
            dN 2, ropt dWs, dN 2, ropt dWs, dN 3, ropt dWs, dN 3, ropt dWs, dN 2],
      rcat [rstr "Carte Bleue", sepOptColon, cc4Groups],
      rcat [rstr "N° CB", sepOptColon, cc4Groups],
      rcat [rstr "Cryptogramme", sepOptColon, RE.rep dDigit 3 4] ]
  else if language_code = "es" then
    [ rcat [rstr "Teléfono", sepOptColon, esPhoneCore],
      rcat [rstr "Móvil", sepOptColon, esPhoneCore],
      rcat [rstr "Correo Electrónico", sepOptColon, emailCore],
      rcat [rstr "E-mail", sepOptColon, emailCore],
      rcat [rstr "DNI", sepOptColon, dN 8, dUpper],
      rcat [rstr "NIE", sepOptColon, RE.cls [('X', 'Z')] false, dN 7, dUpper],
      rcat [rstr "Tarjeta de Crédito", sepOptColon, cc4Groups],
      rcat [rstr "Código de Seguridad", sepOptColon, RE.rep dDigit 3 4] ]
  else if language_code = "de" then
    [ rcat [rstr "Telefon", sepOptColon, dePhoneCore],
      rcat [rstr "Handy", sepOptColon, dePhoneCore],
      rcat [rstr "E-Mail", sepOptColon, emailCore],
      rcat [rstr "Steuer-ID", sepOptColon, dN 2, ropt dWs, dN 3, ropt dWs, dN 3, ropt dWs, dN 3],
      rcat [rstr "Kreditkarte", sepOptColon, cc4Groups],
      rcat [rstr "Prüfnummer", sepOptColon, RE.rep dDigit 3 4] ]
  else []

/-- Word alternation of the first entry of `HEADING_PATTERNS` (the long
label list of `pdf_redactor.py`), transcribed verbatim from the source. -/
def headingWordList : List String := [
  "Name", "Address", "Phone", "Email", "Contact", "Title", "Position", "Department",
  "Company", "Organization", "Date", "Reference", "Subject", "Re:", "Project", "Document",
  "Section", "Chapter", "Part", "Appendix", "Attachment", "Exhibit", "Figure", "Table",
  "Form", "Page", "Number", "ID", "Identification", "Code", "Status", "Type",
  "Category", "Class", "Group", "Level", "Grade", "Rank", "Rating", "Score",
  "Value", "Amount", "Total", "Sum", "Balance", "Credit", "Debit", "Payment",
  "Invoice", "Receipt", "Order", "Purchase", "Sale", "Transaction", "Account", "Customer",
  "Client", "Vendor", "Supplier", "Partner", "Associate", "Member", "User", "Owner",
  "Manager", "Director", "Officer", "Executive", "Employee", "Staff", "Personnel", "Team",
  "Unit", "Division", "Branch", "Location", "Region", "Area", "Zone", "Territory",
  "Market", "Segment", "Sector", "Industry", "Field", "Domain", "Scope", "Range",
  "Limit", "Threshold", "Minimum", "Maximum", "Average", "Mean", "Median", "Mode",
  "Standard", "Requirement", "Specification", "Condition", "Term", "Rule", "Policy", "Procedure",
  "Process", "Method", "Technique", "Approach", "Strategy", "Plan", "Program", "Schedule",
  "Timeline", "Deadline", "Duration", "Period", "Interval", "Frequency", "Rate", "Ratio",
  "Proportion", "Percentage", "Fraction", "Factor", "Element", "Component", "Module", "Function",
  "Feature", "Aspect", "Attribute", "Property", "Quality", "Characteristic", "Trait", "Parameter",
  "Variable", "Constant", "Formula", "Equation", "Expression", "Statement", "Declaration", "Definition",
  "Description", "Explanation", "Interpretation", "Analysis", "Evaluation", "Assessment", "Review", "Summary",
  "Conclusion", "Recommendation", "Suggestion", "Proposal", "Option", "Alternative", "Choice", "Decision",
  "Resolution", "Solution", "Problem", "Issue", "Challenge", "Obstacle", "Barrier", "Constraint",
  "Limitation", "Restriction", "Regulation", "Law", "Statute", "Code", "Standard", "Guideline",
  "Protocol", "Convention", "Agreement", "Contract", "License", "Permit", "Certificate", "Credential",
  "Qualification", "Degree", "Diploma", "Award", "Prize", "Grant", "Scholarship", "Fellowship",
  "Membership", "Subscription", "Registration", "Enrollment", "Admission", "Entry", "Exit", "Departure",
  "Arrival", "Origin", "Destination", "Source", "Target", "Goal", "Objective", "Purpose",
  "Intent", "Aim", "Mission", "Vision", "Value", "Principle", "Belief", "Philosophy",
  "Theory", "Concept", "Idea", "Thought", "Opinion", "View", "Perspective", "Standpoint",
  "Position", "Stance", "Attitude", "Approach", "Method", "Technique", "Procedure", "Process",
  "System", "Structure", "Framework", "Architecture", "Design", "Layout", "Format", "Style",
  "Mode", "Manner", "Way", "Means", "Mechanism", "Device", "Tool", "Instrument",
  "Equipment", "Apparatus", "Facility", "Installation", "Infrastructure", "Platform", "Environment", "Context",
  "Setting", "Situation", "Circumstance", "Condition", "State", "Status", "Phase", "Stage",
  "Step", "Level", "Tier", "Layer", "Dimension", "Aspect", "Facet", "Side",
  "Part", "Portion", "Segment", "Section", "Division", "Category", "Class", "Type",
  "Kind", "Sort", "Form", "Shape", "Size", "Volume", "Capacity", "Weight",
  "Mass", "Density", "Pressure", "Temperature", "Heat", "Energy", "Power", "Force",
  "Strength", "Intensity", "Magnitude", "Amplitude", "Frequency", "Wavelength", "Spectrum", "Range",
  "Scope", "Extent", "Degree", "Grade", "Quality", "Standard", "Criterion", "Benchmark",
  "Threshold", "Limit", "Boundary", "Border", "Edge", "Margin", "Perimeter", "Circumference",
  "Diameter", "Radius", "Height", "Width", "Length", "Depth", "Distance", "Interval",
  "Gap", "Space", "Area", "Surface", "Volume", "Capacity", "Content", "Amount",
  "Quantity", "Number", "Count", "Tally", "Sum", "Total", "Aggregate", "Whole",
  "Complete", "Full", "Entire", "All", "Every", "Each", "Any", "Some",
  "Few", "Many", "Most", "Several", "Various", "Different", "Diverse", "Distinct",
  "Unique", "Special", "Particular", "Specific", "General", "Common", "Usual", "Normal",
  "Typical", "Standard", "Regular", "Ordinary", "Average", "Median", "Mean", "Mode",
  "Range", "Spread", "Distribution", "Variation", "Deviation", "Difference", "Discrepancy", "Gap",
  "Disparity", "Inequality", "Imbalance", "Asymmetry", "Skew", "Bias", "Tendency", "Trend",
  "Pattern", "Sequence", "Series", "Progression", "Regression", "Correlation", "Causation", "Effect",
  "Impact", "Influence", "Significance", "Importance", "Relevance", "Pertinence", "Applicability", "Validity",
  "Reliability", "Accuracy", "Precision", "Correctness", "Truth", "Fact", "Reality", "Actuality",
  "Existence", "Being", "Presence", "Absence", "Void", "Empty", "Null", "Zero",
  "Nothing", "None", "No", "Not", "Never", "Always", "Ever", "Sometimes",
  "Occasionally", "Rarely", "Seldom", "Often", "Frequently", "Usually", "Normally", "Typically",
  "Generally", "Commonly", "Regularly", "Periodically", "Intermittently", "Sporadically", "Randomly", "Arbitrarily",
  "Haphazardly", "Systematically", "Methodically", "Logically", "Rationally", "Reasonably", "Sensibly", "Practically",
  "Pragmatically", "Realistically", "Ideally", "Theoretically", "Hypothetically", "Speculatively", "Conjecturally", "Presumably",
  "Supposedly", "Allegedly", "Reportedly", "Apparently", "Seemingly", "Ostensibly", "Nominally", "Formally",
  "Officially", "Legally", "Legitimately", "Validly", "Rightfully", "Justifiably", "Defensibly", "Excusably",
  "Pardonably", "Forgivably", "Understandably", "Comprehensibly", "Intelligibly", "Clearly", "Plainly", "Obviously",
  "Evidently", "Manifestly", "Patently", "Unquestionably", "Indisputably", "Undeniably", "Irrefutably", "Incontrovertibly",
  "Incontestably", "Undoubtedly", "Certainly", "Surely", "Definitely", "Absolutely", "Positively", "Completely",
  "Entirely", "Wholly", "Fully", "Totally", "Utterly", "Thoroughly", "Comprehensively", "Exhaustively",
  "Extensively", "Broadly", "Widely", "Vastly", "Immensely", "Tremendously", "Enormously", "Hugely",
  "Massively", "Substantially", "Considerably", "Significantly", "Markedly", "Notably", "Remarkably", "Strikingly",
  "Outstandingly", "Exceptionally", "Extraordinarily", "Extremely", "Intensely", "Severely", "Acutely", "Critically",
  "Gravely", "Seriously", "Profoundly", "Deeply", "Greatly", "Highly", "Very", "Quite",
  "Rather", "Fairly", "Moderately", "Somewhat", "Slightly", "Marginally", "Minimally", "Barely",
  "Hardly", "Scarcely", "Almost", "Nearly", "Approximately", "About", "Around", "Roughly",
  "More or Less", "Relatively", "Comparatively", "Proportionally", "Accordingly", "Correspondingly", "Respectively", "Individually",
  "Separately", "Independently", "Autonomously", "Freely", "Voluntarily", "Willingly", "Deliberately", "Intentionally",
  "Purposely", "Consciously", "Knowingly", "Wittingly", "Unwittingly", "Unknowingly", "Unconsciously", "Unintentionally",
  "Accidentally", "Inadvertently", "Undeliberately", "Mistakenly", "Erroneously", "Incorrectly", "Wrongly", "Falsely",
  "Inaccurately", "Imprecisely", "Approximately", "Roughly", "About", "Around", "Near", "Close",
  "Adjacent", "Neighboring", "Bordering", "Surrounding", "Encompassing", "Encircling", "Enclosing", "Containing",
  "Holding", "Keeping", "Maintaining", "Preserving", "Conserving", "Protecting", "Safeguarding", "Securing",
  "Ensuring", "Guaranteeing", "Warranting", "Promising", "Pledging", "Vowing", "Swearing", "Affirming",
  "Asserting", "Claiming", "Stating", "Declaring", "Announcing", "Proclaiming", "Pronouncing", "Promulgating",
  "Publishing", "Issuing", "Releasing", "Distributing", "Disseminating", "Spreading", "Propagating", "Transmitting",
  "Conveying", "Communicating", "Expressing", "Articulating", "Formulating", "Phrasing", "Wording", "Verbalizing",
  "Voicing", "Uttering", "Saying", "Telling", "Relating", "Recounting", "Narrating", "Describing",
  "Depicting", "Portraying", "Illustrating", "Demonstrating", "Showing", "Displaying", "Exhibiting", "Presenting",
  "Representing", "Symbolizing", "Signifying", "Denoting", "Connoting", "Implying", "Suggesting", "Indicating",
  "Pointing", "Referring", "Alluding", "Hinting", "Insinuating", "Intimating", "Implying", "Suggesting",
  "Indicating", "Signaling", "Signifying", "Denoting", "Designating", "Specifying", "Stipulating", "Stating",
  "Declaring", "Asserting", "Affirming", "Maintaining", "Contending", "Arguing", "Reasoning", "Thinking",
  "Believing", "Supposing", "Assuming", "Presuming", "Postulating", "Hypothesizing", "Theorizing", "Speculating",
  "Conjecturing", "Guessing", "Estimating", "Approximating", "Calculating", "Computing", "Reckoning", "Counting",
  "Numbering", "Enumerating", "Listing", "Itemizing", "Cataloging", "Inventorying", "Indexing", "Tabulating",
  "Charting", "Graphing", "Plotting", "Mapping", "Locating", "Positioning", "Placing", "Situating",
  "Stationing", "Establishing", "Setting", "Fixing", "Securing", "Fastening", "Attaching", "Connecting",
  "Joining", "Linking", "Coupling", "Pairing", "Matching", "Fitting", "Suiting", "Adapting",
  "Adjusting", "Aligning", "Orienting", "Directing", "Aiming", "Targeting", "Focusing", "Concentrating",
  "Centering", "Converging", "Merging", "Combining", "Uniting", "Integrating", "Incorporating", "Including",
  "Encompassing", "Comprising", "Containing", "Holding", "Keeping", "Retaining", "Maintaining", "Preserving",
  "Conserving", "Sustaining", "Supporting", "Upholding", "Bearing", "Carrying", "Conveying", "Transporting",
  "Moving", "Shifting", "Transferring", "Relocating", "Displacing", "Replacing", "Substituting", "Exchanging",
  "Swapping", "Trading", "Bartering", "Dealing", "Transacting", "Negotiating", "Bargaining", "Haggling",
  "Dickering", "Bidding", "Offering", "Proposing", "Suggesting", "Recommending", "Advising", "Counseling",
  "Consulting", "Conferring", "Deliberating", "Discussing", "Debating", "Arguing", "Disputing", "Contesting",
  "Challenging", "Questioning", "Doubting", "Suspecting", "Mistrusting", "Distrusting", "Disbelieving", "Rejecting",
  "Refusing", "Declining", "Denying", "Negating", "Contradicting", "Opposing", "Resisting", "Objecting",
  "Protesting", "Complaining", "Criticizing", "Condemning", "Denouncing", "Censuring", "Reproaching", "Rebuking",
  "Reprimanding", "Admonishing", "Chastising", "Castigating", "Scolding", "Berating", "Upbraiding", "Lambasting",
  "Blasting", "Lashing", "Attacking", "Assaulting", "Assailing", "Accosting", "Confronting", "Challenging",
  "Defying", "Daring", "Provoking", "Inciting", "Instigating", "Agitating", "Stirring", "Rousing",
  "Arousing", "Exciting", "Stimulating", "Motivating", "Inspiring", "Encouraging", "Urging", "Exhorting",
  "Persuading", "Convincing", "Influencing", "Affecting", "Impacting", "Impressing", "Striking", "Hitting",
  "Touching", "Reaching", "Extending", "Stretching", "Expanding", "Enlarging", "Increasing", "Growing",
  "Developing", "Evolving", "Progressing", "Advancing", "Proceeding", "Continuing", "Persisting", "Enduring",
  "Lasting", "Remaining", "Staying", "Abiding", "Dwelling", "Residing", "Living", "Existing",
  "Being"
]

/-- Separator characters of the first heading pattern (each appears in the
source as an alternative `\\s*X`); the final alternative is `\\s*\\s`. -/
def headingSepChars : List Char :=
  [':', '-', '–', '—', '(', '[', Char.ofNat 123, '<', '>', '|', '/', Char.ofNat 92,
   '+', '=', '*', '&', '^', '%', '$', '#', '@', '!', '?', ';', ',', '.',
   Char.ofNat 39, Char.ofNat 34, Char.ofNat 96, '~']

/-- The `HEADING_PATTERNS` class attribute: generic heading shapes, matched
case-sensitively with `re.match` against the stripped candidate text. -/
def headingPatterns : List RE :=
  [ rcat [ralts (headingWordList.map rstr),
          ralts ((headingSepChars.map (fun c => rcat [wsStar, rchar c])) ++ [rcat [wsStar, dWs]]),
          RE.star dDot, RE.lineEnd],
    rcat [RE.rep (RE.cls [('I', 'I'), ('V', 'V'), ('X', 'X')] false) 1 5, ropt (rchar '.'),
          wsPlus, RE.star dDot, RE.lineEnd],
    rcat [dUpper, RE.star dLower, RE.alt (rchar ':') RE.lineEnd],
    rcat [RE.rep (RE.cls ([('A', 'Z')] ++ wsRanges) false) 2 2,
          RE.star (RE.cls ([('A', 'Z')] ++ wsRanges) false), RE.alt (rchar ':') RE.lineEnd],
    rcat [ralts [rstr "Section", rstr "Chapter", rstr "Title", rstr "Part"], wsPlus, rplus dDigit],
    rcat [rplus dDigit, rchar '.', wsPlus, dUpper],
    rcat [dUpper, rplus dLower, wsPlus, rplus dDigit] ]

/-- Separator alternation `(?:\\s*:|\\s*-|\\s*–)` of the language heading patterns. -/
def langHeadSep : RE :=
  ralts [rcat [wsStar, rchar ':'], rcat [wsStar, rchar '-'], rcat [wsStar, rchar '–']]

/-- The `LANGUAGE_HEADING_PATTERNS` class attribute (en / de / fr / es; empty
for any other language code, modelling the dictionary-membership test). -/
def languageHeadingPatterns (language_code : String) : List RE :=
  if language_code = "en" then
    [rcat [ralts [rstr "Name", rstr "Address", rstr "Phone", rstr "Email"], langHeadSep]]
  else if language_code = "de" then
    [rcat [ralts [rstr "Name", rstr "Adresse", rstr "Telefon", rstr "E-Mail"], langHeadSep]]
  else if language_code = "fr" then
    [rcat [ralts [rstr "Nom", rstr "Adresse", rstr "Téléphone", rstr "Courriel", rstr "Email"], langHeadSep]]
  else if language_code = "es" then
    [rcat [ralts [rstr "Nombre", rstr "Dirección", rstr "Teléfono", rstr "Correo"], langHeadSep]]
  else []

/-- Label-value regex of `is_heading`:
`^([A-Z][a-z]+(?:\\s+[A-Z][a-z]+)?\\s*:)\\s*(.+)$`. -/
def ihLabelRe : RE :=
  rcat [RE.grp 1 (rcat [dUpper, rplus dLower, ropt (rcat [wsPlus, dUpper, rplus dLower]),
                        wsStar, rchar ':']),
        wsStar, RE.grp 2 (rplus dDot), RE.lineEnd]

/-- Value portion of a stripped label-value candidate, when the label-value
regex of `is_heading` matches. -/
def ihLabelValue (text : String) : Option String :=
  match tryMatchAt false ihLabelRe none (pyStrip text).toList with
  | some st => some (capLookup (st.caps.map (fun p => (p.1, String.mk p.2))) 2)
  | none => none

/-- The `value_tests` lambdas of `is_heading`, searched case-sensitively in
the value portion. -/
def valueTests : List RE :=
  [ cc4Groups,
    rcat [RE.wordB, RE.rep dDigit 13 16, RE.wordB],
    rcat [dN 3, ropt (rchar '-'), dN 2, ropt (rchar '-'), dN 4],
    phoneTail,
    emailCore,
    rcat [RE.rep dDigit 1 2, rchar '/', RE.rep dDigit 2 4],
    rcat [RE.wordB, RE.rep dDigit 8 17, RE.wordB] ]

/-- Final label-format check `^[A-Z][a-z]+\\s*:` of `is_heading`. -/
def labelFormatRe : RE := rcat [dUpper, rplus dLower, wsStar, rchar ':']

/-- The Heading Classifier `PDFRedactor.is_heading`: decides whether a
candidate survives as a heading (`true` = preserve) following the source's
priority order: headings disabled, length bound, always-redact sensitive
overrides (base list plus language extras, searched with IGNORECASE),
label-wrapping-sensitive-value, then the heading shapes. -/
def is_heading (text : String) (config : RedactionConfig) (language_code : String) : Bool :=
  if !config.preserve_headings then false
  else if text.length > 50 then false
  else if (sensitive_patterns ++ language_sensitive_patterns language_code).any
            (fun p => reSearchB true p text) then false
  else if (match ihLabelValue text with
           | some value => valueTests.any (fun p => reSearchB false p value)
           | none => false) then false
  else if (languageHeadingPatterns language_code).any (fun p => reMatchB false p (pyStrip text)) then
    true
  else if headingPatterns.any (fun p => reMatchB false p (pyStrip text)) then true
  else if reMatchB false labelFormatRe (pyStrip text) then true
  else false

/-! Language detection and resolution. -/

/-- Result of executing a Python block that may raise. -/
inductive PyEval (A : Type) where
  | ok : A → PyEval A
  | raised : PyEval A
deriving Repr, DecidableEq

/-- Local variable `detect_langs` of `detect_language` at the moment the body
evaluates `detect_langs(text)`: the assignment `detect_langs = detect_langs(text)`
makes the name function-local throughout the body, so the call on its right-hand
side reads a still-unbound local (CPython raises UnboundLocalError) instead of
the imported `langdetect.detect_langs`. -/
def localDetectLangs : Option (String → List String) := none

/-- Body of the `try` block of `PDFRedactor.detect_language`: reading the
unbound local raises; the unreachable bound branch mirrors the source (return
the most probable language when the result list is nonempty, otherwise fall
through with no return value). -/
def detectLanguageTry (_text : String) : PyEval (Option String) :=
  match localDetectLangs with
  | none => .raised
  | some f =>
    match f _text with
    | [] => .ok none
    | l :: _ => .ok (some l)

/-- `PDFRedactor.detect_language`: the bare `except: pass` swallows the
error raised in the `try` block and the trailing `return "en"` runs. -/
def detect_language (text : String) : String :=
  match detectLanguageTry text with
  | .ok (some l) => l
  | .ok none => "en"
  | .raised => "en"

/-- The `self.detected_languages` cache, keyed by exact page text. -/
abbrev LangCache := List (String × String)

/-- Outcome of per-page language resolution: chosen code, updated cache, and
whether `detect_language` was invoked. -/
structure LangResolution where
  code : String
  cache : LangCache
  detected : Bool
deriving Repr, DecidableEq

/-- Per-page language resolution of `redact_matches` (and `blur_text`): a
non-`auto` configured language is used unconditionally; under `auto` the
cache keyed by the exact page text is consulted and only a miss invokes
`detect_language` and stores the result. -/
def resolvePageLanguage (config : RedactionConfig) (cache : LangCache) (pageText : String) :
    LangResolution :=
  if config.language = "auto" then
    match cache.lookup pageText with
    | some v => ⟨v, cache, false⟩
    | none => let v := detect_language pageText; ⟨v, (pageText, v) :: cache, true⟩
  else ⟨config.language, cache, false⟩

/-! Page model and redaction records. -/

/-- Model of `page.search_for(literal)`: the character offsets at which the
literal occurs in the page text (PyMuPDF rectangles abstracted to offsets;
an empty list means the literal cannot be located). -/
def searchFor (pageText needle : String) : List Nat :=
  (List.range (pageText.length + 1)).filter
    (fun i => needle.toList ≠ [] &&
      ((pageText.toList.drop i).take needle.length == needle.toList))

/-- Visual treatment of a redaction: blur replacement text or opaque fill
(the colour value is represented by its resolved key). -/
inductive Treatment where
  | blurText : String → Treatment
  | fill : String → Treatment
deriving Repr, DecidableEq

/-- The `self.COLORS.get(color, self.COLORS["black"])` lookup. -/
def colorsGet (c : String) : String :=
  if c = "white" || c = "black" || c = "red" || c = "green" || c = "blue" then c else "black"

/-- One redaction dictionary produced by the `find_*_matches` methods. -/
structure Redaction where
  kind : String
  matchText : String
  rect : Nat
  page : Nat
  treat : Treatment
deriving Repr, DecidableEq

/-- Shared tail of every `find_*_matches` loop: locate the matched text on the
page and build one redaction per occurrence, blurred or filled per config. -/
def emitRedactions (config : RedactionConfig) (kind : String) (pageText : String)
    (pageNum : Nat) (matchText : String) : List Redaction :=
  (searchFor pageText matchText).map (fun pos =>
    { kind := kind, matchText := matchText, rect := pos, page := pageNum,
      treat :=
        if config.use_blur then
          Treatment.blurText (String.mk (List.replicate matchText.length '*'))
        else Treatment.fill (colorsGet config.color) })

/-! Category detectors. -/

/-- Skip `\b(?:19|20)\d{2}\b` (looks like a calendar year; `re.match`). -/
def yearSkipRe : RE := rcat [RE.wordB, RE.alt (rstr "19") (rstr "20"), dN 2, RE.wordB]

/-- Skip `\b[1-9]\d{0,3}\b` of `find_phone_matches` and `verify_redaction`
(bare integer of one to four digits; `re.match`). -/
def pageNumSkip4Re : RE :=
  rcat [RE.wordB, RE.cls [('1', '9')] false, RE.rep dDigit 0 3, RE.wordB]

/-- Skip `\b[1-9]\d{0,2}\b` of `find_cvv_matches` (bare integer of one to
three digits; `re.match`). -/
def pageNumSkip3Re : RE :=
  rcat [RE.wordB, RE.cls [('1', '9')] false, RE.rep dDigit 0 2, RE.wordB]

/-- Optional `\+?1[-.\s]?` US country-code prefix of the phone patterns. -/
def usPrefix : RE := ropt (rcat [ropt (rchar '+'), rchar '1', ropt dashDotWs])

/-- Phone patterns of `find_phone_matches` (source order). -/
def phonePatterns : List RE :=
  [ rcat [RE.wordB,
          ropt (ralts [rstr "Phone", rstr "Tel", rstr "Mobile", rstr "Cell", rstr "Contact",
                       rstr "Call", rstr "Fax"]),
          wsStar, ropt (ralts [rchar ':', rchar '#', rstr "number", rstr "is", rstr "at"]), wsStar,
          usPrefix, ropt (rchar '('), RE.grp 1 (dN 3), ropt (rchar ')'), ropt dashDotWs,
          RE.grp 2 (dN 3), ropt dashDotWs, RE.grp 3 (dN 4), RE.wordB],
    rcat [RE.wordB, rchar '+', RE.rep dDigit 1 3, ropt dashDotWs, ropt (rchar '('),
          RE.rep dDigit 1 4, ropt (rchar ')'), ropt dashDotWs, RE.rep dDigit 1 4, ropt dashDotWs,
          RE.rep dDigit 1 9, RE.wordB],
    rcat [RE.wordB,
          ralts [rstr "phone", rstr "tel", rstr "telephone", rstr "mobile", rstr "cell",
                 rstr "fax", rstr "work", rstr "home", rstr "office"],
          rplus colDotWs, usPrefix, ropt (rchar '('), RE.grp 1 (dN 3), ropt (rchar ')'),
          ropt dashDotWs, RE.grp 2 (dN 3), ropt dashDotWs, RE.grp 3 (dN 4), RE.wordB],
    rcat [RE.wordB, usPrefix, ropt (rchar '('), RE.grp 1 (dN 3), ropt (rchar ')'),
          ropt dashDotWs, RE.grp 2 (dN 3), ropt dashDotWs, RE.grp 3 (dN 4),
          ropt (rcat [ropt dashDotWs, ralts [rstr "ext", rchar 'x', rstr "extension"],
                      ropt dashDotWs, RE.rep dDigit 1 5]),
          RE.wordB] ]

/-- Skip patterns of `find_phone_matches`: shapes that look like credit-card
numbers (searched in the matched text). -/
def phoneCcSkipPatterns : List RE :=
  [ rcat [RE.wordB, RE.rep (rcat [dN 4, ropt dashWs]) 4 4, RE.wordB],
    rcat [RE.wordB, dN 16, RE.wordB],
    rcat [RE.wordB, dN 13, RE.wordB],
    rcat [RE.wordB, dN 15, RE.wordB],
    rcat [RE.wordB,
          ralts [ rcat [rchar '4', dN 12, ropt (dN 3)],
                  rcat [rchar '5', RE.cls [('1', '5')] false, dN 14],
                  rcat [rchar '3', RE.cls [('4', '4'), ('7', '7')] false, dN 13],
                  rcat [rchar '3',
                        RE.alt (rcat [rchar '0', RE.cls [('0', '5')] false])
                               (rcat [RE.cls [('6', '6'), ('8', '8')] false, dDigit]),
                        dN 11],
                  rcat [rchar '6', RE.alt (rstr "011") (rcat [rchar '5', dN 2]), dN 12] ],
          RE.wordB] ]

/-- `PDFRedactor.find_phone_matches` on one page of text: match the phone
patterns (IGNORECASE), drop matches that look like credit cards, preserved
headings, year lookalikes and page-number lookalikes, and emit one redaction
per located occurrence of each surviving match. -/
def find_phone_matches (config : RedactionConfig) (pageText : String) (pageNum : Nat) :
    List Redaction :=
  let langCode := if config.language = "auto" then detect_language pageText else config.language
  phonePatterns.flatMap (fun p =>
    (reFinditer true p pageText).flatMap (fun m =>
      let matchText := m.full
      if phoneCcSkipPatterns.any (fun cc => reSearchB false cc matchText) then []
      else if config.preserve_headings && is_heading matchText config langCode then []
      else if reMatchB false yearSkipRe matchText then []
      else if reMatchB false pageNumSkip4Re matchText then []
      else emitRedactions config "Phone Number" pageText pageNum matchText))

/-- Credit-card patterns of `find_credit_card_matches` (source order:
Visa, Mastercard, Amex, Discover shapes and two labelled forms). -/
def creditCardPatterns : List RE :=
  [ rcat [RE.wordB, rchar '4', dN 3, ropt dashWs, dN 4, ropt dashWs, dN 4, ropt dashWs, dN 4,
          RE.wordB],
    rcat [RE.wordB, rchar '4', dN 3, ropt dashWs, dN 4, ropt dashWs, dN 4, ropt dashWs,
          RE.rep dDigit 1 4, RE.wordB],
    rcat [RE.wordB, rchar '5', RE.cls [('1', '5')] false, dN 2, ropt dashWs, dN 4, ropt dashWs,
          dN 4, ropt dashWs, dN 4, RE.wordB],
    rcat [RE.wordB, rchar '2', RE.cls [('2', '7')] false, RE.cls [('2', '7')] false, dDigit,
          ropt dashWs, dN 4, ropt dashWs, dN 4, ropt dashWs, dN 4, RE.wordB],
    rcat [RE.wordB, rchar '3', RE.cls [('4', '4'), ('7', '7')] false, dN 2, ropt dashWs, dN 6,
          ropt dashWs, dN 5, RE.wordB],
    rcat [RE.wordB, rstr "6011", ropt dashWs, dN 4, ropt dashWs, dN 4, ropt dashWs, dN 4,
          RE.wordB],
    rcat [RE.wordB, rstr "65", dN 2, ropt dashWs, dN 4, ropt dashWs, dN 4, ropt dashWs, dN 4,
          RE.wordB],
    rcat [RE.wordB, rstr "64", RE.cls [('4', '9')] false, dDigit, ropt dashWs, dN 4, ropt dashWs,
          dN 4, ropt dashWs, dN 4, RE.wordB],
    rcat [RE.wordB,
          ralts [rcat [rstr "credit", wsPlus, rstr "card"], rcat [rstr "card", wsPlus, rstr "number"],
                 rcat [rstr "cc", wsPlus, rstr "number"], rcat [rstr "cc", wsStar, rchar '#'],
                 rcat [rstr "card", wsStar, rchar '#']],
          rplus colDotWs,
          RE.grp 1 (rcat [dN 4, ropt dashWs, dN 4, ropt dashWs, dN 4, ropt dashWs, dN 4]),
          RE.wordB],
    rcat [RE.wordB, ralts [rstr "visa", rstr "mastercard", rstr "amex", rstr "discover"],
          rplus colDotWs,
          RE.grp 1 (rcat [dN 4, ropt dashWs, dN 4, ropt dashWs, dN 4, ropt dashWs, dN 4]),
          RE.wordB] ]

/-- Skip patterns of `find_credit_card_matches`: shapes that look like phone
numbers (searched in the matched text). -/
def ccPhoneSkipPatterns : List RE :=
  [ rcat [RE.wordB, ropt (rchar '+'), RE.rep dDigit 1 3, ropt dashDotWs, ropt (rchar '('),
          dN 3, ropt (rchar ')'), ropt dashDotWs, dN 3, ropt dashDotWs, dN 4, RE.wordB],
    rcat [RE.wordB, rchar '(', dN 3, rchar ')', wsStar, dN 3, ropt dashDotWs, dN 4, RE.wordB],
    rcat [RE.wordB, dN 3, ropt dashDotWs, dN 3, ropt dashDotWs, dN 4, RE.wordB] ]

/-- `PDFRedactor.find_credit_card_matches` on one page of text: match the
card patterns (IGNORECASE), drop matches that look like phone numbers and
preserved headings, and emit one redaction per located occurrence. -/
def find_credit_card_matches (config : RedactionConfig) (pageText : String) (pageNum : Nat) :
    List Redaction :=
  let langCode := if config.language = "auto" then detect_language pageText else config.language
  creditCardPatterns.flatMap (fun p =>
    (reFinditer true p pageText).flatMap (fun m =>
      let matchText := m.full
      if ccPhoneSkipPatterns.any (fun ph => reSearchB false ph matchText) then []
      else if config.preserve_headings && is_heading matchText config langCode then []
      else emitRedactions config "Credit Card Number" pageText pageNum matchText))

/-- One CVV pattern together with whether it contains a capture group (all
four source patterns do, so `match.group(1)` is taken as the match text). -/
structure CvvPat where
  re : RE
  hasGroup : Bool

/-- CVV/CVC patterns of `find_cvv_matches` (source order). -/
def cvvPatterns : List CvvPat :=
  [ ⟨rcat [RE.wordB,
           ralts [rstr "cvv", rstr "cvc", rstr "cvv2", rstr "cvc2",
                  rcat [rstr "security", wsPlus, rstr "code"],
                  rcat [rstr "card", wsPlus, rstr "security", wsPlus, rstr "code"],
                  rcat [rstr "verification", wsPlus, rstr "code"],
                  rcat [rstr "security", wsPlus, rstr "number"]],
           rplus colDotWs, RE.grp 1 (RE.rep dDigit 3 4), RE.wordB], true⟩,
    ⟨rcat [RE.wordB, RE.grp 1 (RE.rep dDigit 3 4), wsStar, rchar '(',
           ralts [rstr "cvv", rstr "cvc", rcat [rstr "security", wsPlus, rstr "code"]],
           rchar ')'], true⟩,
    ⟨rcat [RE.wordB, dN 4, ropt dashWs, dN 4, ropt dashWs, dN 4, ropt dashWs, dN 4, wsPlus,
           ropt (ralts [rstr "cvv", rstr "cvc", rcat [rstr "security", wsPlus, rstr "code"]]),
           RE.star colDotWs, RE.grp 1 (RE.rep dDigit 3 4), RE.wordB], true⟩,
    ⟨rcat [RE.wordB, ralts [rstr "cvv", rstr "cvc", rstr "security"], wsStar,
           ropt (ralts [rstr "number", rstr "code", rstr "verification"]), wsStar,
           rplus colDotWs, RE.grp 1 (RE.rep dDigit 3 4), RE.wordB], true⟩ ]

/-- The `get_language_specific_patterns(lang).get("cvv", [])` lookup of
`find_cvv_matches`: no language entry of the catalog defines a `cvv` key, so
the default empty list applies for every language code. -/
def langSpecificCvvPatterns (_langCode : String) : List CvvPat := []

/-- `PDFRedactor.find_cvv_matches` on one page of text: match the CVV
patterns (IGNORECASE), take the capture group as the match text, drop
preserved headings, year lookalikes and one-to-three digit page-number
lookalikes, and emit one redaction per located occurrence. -/
def find_cvv_matches (config : RedactionConfig) (pageText : String) (pageNum : Nat) :
    List Redaction :=
  let langCode := if config.language = "auto" then detect_language pageText else config.language
  (cvvPatterns ++ langSpecificCvvPatterns langCode).flatMap (fun p =>
    (reFinditer true p.re pageText).flatMap (fun m =>
      let matchText := if p.hasGroup then capLookup m.caps 1 else m.full
      if config.preserve_headings && is_heading matchText config langCode then []
      else if reMatchB false yearSkipRe matchText then []
      else if reMatchB false pageNumSkip3Re matchText then []
      else emitRedactions config "CVV/CVC Code" pageText pageNum matchText))

/-- Result of `find_custom_matches`: the redaction list plus the warnings the
method prints (the invalid-pattern message when compilation fails). -/
structure CustomScan where
  redactions : List Redaction
  warnings : List String
deriving Repr, DecidableEq

/-- Python truthiness of the optional mask string (`None` and the empty
string are falsy). -/
def pyTruthyStr : Option String → Bool
  | none => false
  | some s => !(s == "")

/-- `PDFRedactor.find_custom_matches`.  The `re.compile(mask, re.IGNORECASE)`
call is the external compilation step, modelled by the `compile` argument
(`none` = `re.error`).  An absent or empty mask returns nothing; a mask that
fails to compile is caught locally, produces the invalid-pattern warning and
an empty redaction list, and the method returns normally instead of raising;
a compiled mask is scanned like the other categories. -/
def find_custom_matches (compile : String → Option RE) (config : RedactionConfig)
    (pageText : String) (pageNum : Nat) : CustomScan :=
  if !pyTruthyStr config.custom_mask then ⟨[], []⟩
  else
    let mask := config.custom_mask.getD ""
    match compile mask with
    | none => ⟨[], ["Error: Invalid custom pattern " ++ mask]⟩
    | some re =>
      ⟨(reFinditer true re pageText).flatMap (fun m =>
          let matchText := m.full
          let langCode :=
            if config.language = "auto" then detect_language pageText else config.language
          if config.preserve_headings && is_heading matchText config langCode then []
          else emitRedactions config "Custom Pattern" pageText pageNum matchText), []⟩

/-! Redaction planner (`redact_matches` / `blur_text`). -/

/-- One planned instruction of the page loop of `redact_matches`/`blur_text`:
the literal placed under an annotation, its located occurrence, and the
visual treatment. -/
structure PlannedRedaction where
  literal : String
  rect : Nat
  treat : Treatment
deriving Repr, DecidableEq

/-- Label-value regex `^([A-Z][a-z]+\s*:)\s*(.+)$` shared by `redact_matches`
and `blur_text` (single capitalized word label). -/
def rmLabelRe : RE :=
  rcat [RE.grp 1 (rcat [dUpper, rplus dLower, wsStar, rchar ':']), wsStar,
        RE.grp 2 (rplus dDot), RE.lineEnd]

/-- Label and content groups of `re.match` against the label-value regex. -/
def rmLabelParts (matchText : String) : Option (String × String) :=
  match tryMatchAt false rmLabelRe none matchText.toList with
  | some st =>
    let caps := st.caps.map (fun p => (p.1, String.mk p.2))
    some (capLookup caps 1, capLookup caps 2)
  | none => none

/-- Per-match body of the `redact_matches` page loop: preserved headings are
skipped; with `preserve_headings` enabled a `Label: Value` match is narrowed
to its value part when the value can be located on the page, falling back to
the full matched text otherwise (one instruction per located occurrence;
`fill` uses `fitz.utils.getColor(config.color)`, carried as the colour
name). -/
def planMatchRedaction (config : RedactionConfig) (pageText : String) (langCode : String)
    (matchText : String) : List PlannedRedaction :=
  if is_heading matchText config langCode then []
  else
    let fullPlan := (searchFor pageText matchText).map (fun pos =>
      PlannedRedaction.mk matchText pos (Treatment.fill config.color))
    match (if config.preserve_headings then rmLabelParts matchText else none) with
    | some lc =>
      let contentRects := searchFor pageText lc.2
      if contentRects ≠ [] then
        contentRects.map (fun pos => PlannedRedaction.mk lc.2 pos (Treatment.fill config.color))
      else fullPlan
    | none => fullPlan

/-- Per-match body of the `blur_text` page loop: identical narrowing logic,
with a semi-transparent asterisk overlay as the treatment. -/
def planMatchBlur (config : RedactionConfig) (pageText : String) (langCode : String)
    (matchText : String) : List PlannedRedaction :=
  if is_heading matchText config langCode then []
  else
    let fullPlan := (searchFor pageText matchText).map (fun pos =>
      PlannedRedaction.mk matchText pos
        (Treatment.blurText (String.mk (List.replicate matchText.length '*'))))
    match (if config.preserve_headings then rmLabelParts matchText else none) with
    | some lc =>
      let contentRects := searchFor pageText lc.2
      if contentRects ≠ [] then
        contentRects.map (fun pos => PlannedRedaction.mk lc.2 pos
          (Treatment.blurText (String.mk (List.replicate lc.2.length '*'))))
      else fullPlan
    | none => fullPlan

/-- One page of `PDFRedactor.redact_matches`: resolve the page language
(cached under `auto`), then run the per-match loop on every matched literal;
`use_blur` delegates to the `blur_text` variant as the source does at
function entry. -/
def redact_matches_page (config : RedactionConfig) (cache : LangCache) (pageText : String)
    (matchList : List String) : List PlannedRedaction × LangCache :=
  let r := resolvePageLanguage config cache pageText
  (matchList.flatMap (fun m =>
     if config.use_blur then planMatchBlur config pageText r.code m
     else planMatchRedaction config pageText r.code m), r.cache)

/-! Verification scanner (`verify_redaction`). -/

/-- One verification pattern with its number of capture groups (which decides
the shape `re.findall` returns). -/
structure VPat where
  re : RE
  groups : Nat

/-- One item of a `re.findall` result: a plain string when the pattern has at
most one group, the tuple of groups otherwise. -/
inductive FindAllItem where
  | s : String → FindAllItem
  | tup : List String → FindAllItem
deriving Repr, DecidableEq

/-- Python `re.findall`: full match without groups, the single group with one
group, the tuple of groups otherwise. -/
def pyFindAll (p : VPat) (text : String) : List FindAllItem :=
  (reFinditer true p.re text).map (fun m =>
    if p.groups = 0 then .s m.full
    else if p.groups = 1 then .s (capLookup m.caps 1)
    else .tup ((List.range p.groups).map (fun i => capLookup m.caps (i + 1))))

/-- Python `str()` of a findall item; `str` of a tuple renders it inside
parentheses with quoted elements, so the anchored skip regexes never match
such an item. -/
def pyStrItem : FindAllItem → String
  | .s s => s
  | .tup xs =>
    "(" ++ String.intercalate ", "
      (xs.map (fun x => String.mk (Char.ofNat 39 :: x.toList ++ [Char.ofNat 39]))) ++ ")"

/-- `\bExpiry\s*:?\s*\d{1,2}/\d{2,4}\b`-shaped verification entries. -/
def expVer (lbl : String) : VPat :=
  ⟨rcat [RE.wordB, rstr lbl, sepOptColon, RE.rep dDigit 1 2, rchar '/', RE.rep dDigit 2 4,
         RE.wordB], 0⟩

/-- The `pattern_categories` dictionary of `verify_redaction` (source order
and grouping preserved). -/
def verifyCategories : List (String × List VPat) :=
  [ ("Credit Card Numbers",
     [ ⟨rcat [RE.wordB, RE.rep (rcat [dN 4, ropt dashSpace]) 3 3, dN 4, RE.wordB], 0⟩,
       ⟨rcat [RE.wordB, dN 16, RE.wordB], 0⟩,
       ⟨rcat [RE.wordB, dN 13, RE.wordB], 0⟩,
       ⟨rcat [RE.wordB, dN 15, RE.wordB], 0⟩,
       ⟨rcat [RE.wordB,
              ralts [ rcat [rchar '4', dN 12, ropt (dN 3)],
                      rcat [rchar '5', RE.cls [('1', '5')] false, dN 14],
                      rcat [rchar '3', RE.cls [('4', '4'), ('7', '7')] false, dN 13],
                      rcat [rchar '3',
                            RE.alt (rcat [rchar '0', RE.cls [('0', '5')] false])
                                   (rcat [RE.cls [('6', '6'), ('8', '8')] false, dDigit]),
                            dN 11],
                      rcat [rchar '6', RE.alt (rstr "011") (rcat [rchar '5', dN 2]), dN 12],
                      rcat [ralts [rstr "2131", rstr "1800", rcat [rstr "35", dN 3]], dN 11] ],
              RE.wordB], 0⟩ ]),
    ("CVV/CVC Codes",
     [ ⟨rcat [RE.wordB,
              ralts [rstr "cvv", rstr "cvc", rstr "cvv2", rstr "cvc2",
                     rcat [rstr "security", wsPlus, rstr "code"],
                     rcat [rstr "card", wsPlus, rstr "security", wsPlus, rstr "code"],
                     rcat [rstr "verification", wsPlus, rstr "code"],
                     rcat [rstr "security", wsPlus, rstr "number"]],
              rplus colDotWs, RE.grp 1 (RE.rep dDigit 3 4), RE.wordB], 1⟩,
       ⟨rcat [RE.wordB, RE.grp 1 (RE.rep dDigit 3 4), wsStar, rchar '(',
              ralts [rstr "cvv", rstr "cvc", rcat [rstr "security", wsPlus, rstr "code"]],
              rchar ')'], 1⟩,
       ⟨rcat [RE.wordB, ralts [rstr "cvv", rstr "cvc", rstr "security"], wsStar,
              ropt (ralts [rstr "number", rstr "code", rstr "verification"]), wsStar,
              rplus colDotWs, RE.grp 1 (RE.rep dDigit 3 4), RE.wordB], 1⟩ ]),
    ("Expiration Dates",
     [ expVer "Expiry", expVer "Expiration", expVer "Exp", expVer "Valid Thru",
       ⟨rcat [RE.wordB, rstr "Exp.", wsStar, rstr "Date", sepOptColon, RE.rep dDigit 1 2,
              rchar '/', RE.rep dDigit 2 4, RE.wordB], 0⟩ ]),
    ("Phone Numbers",
     [ ⟨rcat [RE.wordB, usPrefix, ropt (rchar '('), RE.grp 1 (dN 3), ropt (rchar ')'),
              ropt dashDotWs, RE.grp 2 (dN 3), ropt dashDotWs, RE.grp 3 (dN 4), RE.wordB], 3⟩,
       ⟨rcat [RE.wordB, rchar '+', RE.rep dDigit 1 3, ropt dashDotWs, ropt (rchar '('),
              RE.rep dDigit 1 4, ropt (rchar ')'), ropt dashDotWs, RE.rep dDigit 1 4,
              ropt dashDotWs, RE.rep dDigit 1 9, RE.wordB], 0⟩,
       ⟨rcat [RE.wordB,
              ralts [rstr "phone", rstr "tel", rstr "telephone", rstr "mobile", rstr "cell",
                     rstr "contact"],
              rplus colDotWs, usPrefix, ropt (rchar '('), RE.grp 1 (dN 3), ropt (rchar ')'),
              ropt dashDotWs, RE.grp 2 (dN 3), ropt dashDotWs, RE.grp 3 (dN 4), RE.wordB], 3⟩ ]),
    ("Email Addresses", [ ⟨emailCore, 0⟩ ]) ]

/-- Matches of one category surviving on one page: `re.findall` over every
pattern of the category, with the year and page-number `re.match` skips
applied to the `str()` rendering of each item. -/
def verifyCategoryMatches (pageText : String) (pats : List VPat) : List FindAllItem :=
  pats.flatMap (fun p =>
    (pyFindAll p pageText).filter (fun m =>
      !(reMatchB false yearSkipRe (pyStrItem m)) &&
      !(reMatchB false pageNumSkip4Re (pyStrItem m))))

/-- Accumulated verification state: the `found_sensitive_info` flag and the
`pattern_matches` record of findings, keyed by page number and category. -/
abbrev VerifyAcc := Bool × List (Nat × String × List FindAllItem)

/-- `list(set(xs))` modelled as deduplication (Python set order is
unspecified; only membership matters downstream). -/
def pyUnique (xs : List FindAllItem) : List FindAllItem := xs.dedup

/-- One category step of the verification loop: surviving matches raise the
flag and append a finding entry; an empty result leaves the state alone. -/
def verifyStepCat (pageNum : Nat) (pageText : String) (acc : VerifyAcc)
    (cat : String × List VPat) : VerifyAcc :=
  let cm := verifyCategoryMatches pageText cat.2
  if cm ≠ [] then (true, acc.2 ++ [(pageNum + 1, cat.1, pyUnique cm)]) else acc

/-- One page step of the verification loop. -/
def verifyStepPage (acc : VerifyAcc) (page : Nat × String) : VerifyAcc :=
  verifyCategories.foldl (verifyStepCat page.1 page.2) acc

/-- Outcome of `verify_redaction`: the returned Bool and the findings. -/
structure VerifyOutcome where
  ok : Bool
  findings : List (Nat × String × List FindAllItem)
deriving Repr, DecidableEq

/-- `PDFRedactor.verify_redaction` restricted to the page-text scan (the
image branch feeds OCR text from the external OCR collaborator through the
same category loop; per the error model an absent adapter contributes no
candidates).  `found_sensitive_info` starts false, is raised exactly by
surviving category matches, and the method returns `True` iff the flag
stayed low. -/
def verify_redaction (pages : List String) : VerifyOutcome :=
  let r := pages.enum.foldl verifyStepPage (false, [])
  ⟨!r.1, r.2⟩

/-! Spec-side checksum. -/

/-- Modelled from the spec: the Luhn checksum that §8 of the spec says
validates CreditCard candidates (`4111111111111111` valid,
`4111111111111112` invalid).  `src/pdf_redactor.py` contains no
implementation of it; this definition only states what the claim asserts. -/
def luhnValidSpec (s : String) : Bool :=
  let digits := s.toList.filterMap
    (fun c => if ('0' ≤ c && c ≤ '9') then some (c.toNat - 48) else none)
  let total := (digits.reverse.enum.map (fun p =>
    if p.1 % 2 = 1 then (if 2 * p.2 > 9 then 2 * p.2 - 9 else 2 * p.2) else p.2)).sum
  digits ≠ [] && total % 10 = 0

/-! Concrete instances used by witnesses. -/

/-- Concrete configuration: every text category enabled, headings preserved,
block redaction, English. -/
def cfgEn : RedactionConfig :=
  { redact_phone := true, redact_email := true, redact_iban := true, redact_cc := true,
    redact_cvv := true, redact_cc_expiration := true, redact_bic := true,
    redact_bic_label := true, redact_images := false, preserve_headings := true,
    redact_aadhaar := false, redact_pan := false, custom_mask := none,
    input_pdf := "in.pdf", output_pdf := "out.pdf", report_only := false,
    verify := true, language := "en" }

/-- The same configuration with heading preservation disabled. -/
def cfgOff : RedactionConfig := { cfgEn with preserve_headings := false }

/-- The same configuration with automatic language detection. -/
def cfgAuto : RedactionConfig := { cfgEn with language := "auto" }

/-- The same configuration with an unbalanced-parenthesis custom mask. -/
def cfgMask : RedactionConfig := { cfgEn with custom_mask := some "(" }

/-- A compilation outcome in which the mask fails to compile (models
`re.compile` raising `re.error` on an invalid pattern such as `(`). -/
def failCompile : String → Option RE := fun _ => none

/-! Claim theorems. -/

/-- C1: a candidate text matching any of the configured always-redact
override patterns (the `sensitive_patterns` list of `is_heading`: CVV/CVC
labelled codes, raw 13/15/16-digit runs, IBAN/BIC labelled strings, SSN
shapes, labelled phone/email, expiration-date shapes) is never classified as
a heading to preserve: `is_heading` returns `false` (verdict Redact) for
every run configuration and language code, regardless of
`preserve_headings` and of any heading-shape match. -/
theorem c1_overrides_never_preserved (text : String) (config : RedactionConfig)
    (language_code : String)
    (h : sensitive_patterns.any (fun p => reSearchB true p text) = true) :
    is_heading text config language_code = false := by
  unfold is_heading
  cases hp : config.preserve_headings with
  | false => simp
  | true =>
    by_cases hl : text.length > 50
    · simp [hl]
    · have hall : (sensitive_patterns ++ language_sensitive_patterns language_code).any
          (fun p => reSearchB true p text) = true := by
        rw [List.any_append, h, Bool.true_or]
      simp [hl, hall]

/-- C1 witness: `CVV: 1234` matches an override pattern and is classified
Redact under the concrete preserve-headings configuration. -/
theorem c1_overrides_never_preserved_witness :
    sensitive_patterns.any (fun p => reSearchB true p "CVV: 1234") = true ∧
    is_heading "CVV: 1234" cfgEn "en" = false :=
  ⟨by decide, c1_overrides_never_preserved "CVV: 1234" cfgEn "en" (by decide)⟩

/-- C3: with `preserve_headings` disabled the Heading Classifier returns the
non-heading result for every text and language code (nothing is preserved;
repeatability is definitional, `is_heading` being a pure function). -/
theorem c3_disabled_headings_always_redact (text : String) (config : RedactionConfig)
    (language_code : String) (h : config.preserve_headings = false) :
    is_heading text config language_code = false := by
  unfold is_heading
  simp [h]

/-- C3 witness: a text that would be preserved as a heading when enabled is
redacted under the disabled configuration. -/
theorem c3_disabled_headings_always_redact_witness :
    cfgOff.preserve_headings = false ∧ is_heading "Name:" cfgOff "en" = false :=
  ⟨rfl, c3_disabled_headings_always_redact "Name:" cfgOff "en" rfl⟩

/-- C10: `detect_language` returns `"en"` for every input text: the local
assignment shadows the imported `detect_langs`, so the `try` block raises
(`detectLanguageTry` = raised) before producing any detection result, the
bare `except` swallows the error, and the `"en"` fallback is the only
reachable return. -/
theorem c10_detect_language_always_en (text : String) :
    detectLanguageTry text = PyEval.raised ∧ detect_language text = "en" :=
  ⟨rfl, rfl⟩

/-- C8: a configured non-`auto` language is returned for every page text
with the cache untouched and no detection call; under `auto`, resolution is
cached by exact page text, so re-resolving character-identical text returns
the cached value with no further detection and no cache change. -/
theorem c8_language_resolution (config : RedactionConfig) (cache : LangCache)
    (pageText : String) :
    (config.language ≠ "auto" →
      resolvePageLanguage config cache pageText =
        ⟨config.language, cache, false⟩) ∧
    (config.language = "auto" →
      resolvePageLanguage config
          (resolvePageLanguage config cache pageText).cache pageText =
        ⟨(resolvePageLanguage config cache pageText).code,
         (resolvePageLanguage config cache pageText).cache, false⟩) := by
  constructor
  · intro h
    unfold resolvePageLanguage
    simp [h]
  · intro h
    unfold resolvePageLanguage
    cases hc : cache.lookup pageText with
    | some v => simp [h, hc]
    | none => simp [h, hc, List.lookup]

/-- C8 witness: a French-configured run resolves to `fr` without touching
the cache, and under `auto` the second resolution of the same text is served
from the cache. -/
theorem c8_language_resolution_witness :
    resolvePageLanguage { cfgEn with language := "fr" } [] "Bonjour" =
      ⟨"fr", [], false⟩ ∧
    resolvePageLanguage cfgAuto (resolvePageLanguage cfgAuto [] "Bonjour").cache "Bonjour" =
      ⟨(resolvePageLanguage cfgAuto [] "Bonjour").code,
       (resolvePageLanguage cfgAuto [] "Bonjour").cache, false⟩ :=
  ⟨(c8_language_resolution { cfgEn with language := "fr" } [] "Bonjour").1 (by decide),
   (c8_language_resolution cfgAuto [] "Bonjour").2 rfl⟩

/-- C9: a custom mask that fails to compile is recovered locally by
`find_custom_matches`: the warning is reported, the redaction list is empty,
and the method returns normally instead of raising. -/
theorem c9_custom_pattern_error_recovered (compile : String → Option RE)
    (config : RedactionConfig) (pageText : String) (pageNum : Nat)
    (hmask : pyTruthyStr config.custom_mask = true)
    (hfail : compile (config.custom_mask.getD "") = none) :
    (find_custom_matches compile config pageText pageNum).redactions = [] ∧
    (find_custom_matches compile config pageText pageNum).warnings ≠ [] := by
  unfold find_custom_matches
  simp [hmask, hfail]

/-- C9 witness: the unbalanced mask `(` with a failing compiler yields no
redactions and one warning on a concrete page. -/
theorem c9_custom_pattern_error_recovered_witness :
    (find_custom_matches failCompile cfgMask "Account data page" 0).redactions = [] ∧
    (find_custom_matches failCompile cfgMask "Account data page" 0).warnings ≠ [] :=
  c9_custom_pattern_error_recovered failCompile cfgMask "Account data page" 0
    (by decide) rfl

/-- C2 counterexample: the Luhn-invalid number 4111111111111112 is not
dropped by any validator: credit-card detection on a page holding exactly
that string emits redactions for it, refuting the claim that it produces no
CreditCard candidate or redaction. -/
theorem c2_luhn_counterexample :
    (find_credit_card_matches cfgEn "4111111111111112" 0).map (fun r => r.matchText) =
      ["4111111111111112", "4111111111111112"] ∧
    luhnValidSpec "4111111111111112" = false :=
  ⟨by decide, by decide⟩

/-- C2 amended: credit-card detection applies no checksum validation: the
Luhn-valid 4111111111111111 and the Luhn-invalid 4111111111111112 (separated
by the spec-side Luhn predicate) are both matched by the credit-card
patterns and both produce CreditCard redactions. -/
theorem c2_no_luhn_validation :
    luhnValidSpec "4111111111111111" = true ∧
    luhnValidSpec "4111111111111112" = false ∧
    (find_credit_card_matches cfgEn "4111111111111111" 0).map (fun r => r.matchText) =
      ["4111111111111111", "4111111111111111"] ∧
    (find_credit_card_matches cfgEn "4111111111111112" 0).map (fun r => r.matchText) =
      ["4111111111111112", "4111111111111112"] :=
  ⟨by decide, by decide, by decide, by decide⟩

/-- C5: in the Redaction Planner, a match that is not classified as a
heading, parses as `Label: Value`, and runs with `preserve_headings`
enabled, is narrowed to its value: when the value can be located on the page
the emitted instructions cover exactly the value substring, and when it
cannot be located they fall back to the full matched text. -/
theorem c5_label_value_narrowing (config : RedactionConfig) (pageText : String)
    (langCode : String) (matchText : String) (lab content : String)
    (hh : is_heading matchText config langCode = false)
    (hp : config.preserve_headings = true)
    (hl : rmLabelParts matchText = some (lab, content)) :
    (searchFor pageText content ≠ [] →
      planMatchRedaction config pageText langCode matchText =
        (searchFor pageText content).map
          (fun pos => PlannedRedaction.mk content pos (Treatment.fill config.color))) ∧
    (searchFor pageText content = [] →
      planMatchRedaction config pageText langCode matchText =
        (searchFor pageText matchText).map
          (fun pos => PlannedRedaction.mk matchText pos (Treatment.fill config.color))) := by
  constructor
  · intro hc
    unfold planMatchRedaction
    simp [hh, hp, hl, hc]
  · intro hc
    unfold planMatchRedaction
    simp [hh, hp, hl, hc]

/-- C5 witness: on a page holding exactly `Phone: 555-123-4567` with
preserved headings, only the value `555-123-4567` is planned for redaction
(one instruction at its located offset), the label untouched. -/
theorem c5_label_value_narrowing_witness :
    searchFor "Phone: 555-123-4567" "555-123-4567" ≠ [] ∧
    planMatchRedaction cfgEn "Phone: 555-123-4567" "en" "Phone: 555-123-4567" =
      (searchFor "Phone: 555-123-4567" "555-123-4567").map
        (fun pos => PlannedRedaction.mk "555-123-4567" pos (Treatment.fill cfgEn.color)) :=
  ⟨by decide,
   (c5_label_value_narrowing cfgEn "Phone: 555-123-4567" "en" "Phone: 555-123-4567"
      "Phone:" "555-123-4567" (by decide) rfl (by decide)).1 (by decide)⟩

/-- Membership in the skip-guarded branches of the detector loops: an element
of `if c then [] else l` refutes the skip condition and lies in `l`. -/
theorem mem_ite_nil {α : Type} {c : Prop} [Decidable c] {l : List α} {x : α}
    (h : x ∈ if c then ([] : List α) else l) : ¬c ∧ x ∈ l := by
  by_cases hc : c
  · rw [if_pos hc] at h
    exact absurd h (List.not_mem_nil x)
  · rw [if_neg hc] at h
    exact ⟨hc, h⟩

/-- C6: cross-category exclusion holds in both directions: no redaction
emitted by `find_credit_card_matches` has matched text that matches any of
the known phone-number skip shapes, and no redaction emitted by
`find_phone_matches` has matched text that matches any of the known
credit-card skip shapes (matching candidates are dropped before emission). -/
theorem c6_cross_category_exclusion (config : RedactionConfig) (pageText : String)
    (pageNum : Nat) :
    (∀ r ∈ find_credit_card_matches config pageText pageNum,
       ccPhoneSkipPatterns.any (fun ph => reSearchB false ph r.matchText) = false) ∧
    (∀ r ∈ find_phone_matches config pageText pageNum,
       phoneCcSkipPatterns.any (fun cc => reSearchB false cc r.matchText) = false) := by
  constructor
  · intro r hr
    simp only [find_credit_card_matches, List.mem_flatMap] at hr
    obtain ⟨p, _hp, m, _hm, hr⟩ := hr
    obtain ⟨h1, hr⟩ := mem_ite_nil hr
    obtain ⟨_h2, hr⟩ := mem_ite_nil hr
    simp only [emitRedactions, List.mem_map] at hr
    obtain ⟨pos, _hpos, rfl⟩ := hr
    simpa using h1
  · intro r hr
    simp only [find_phone_matches, List.mem_flatMap] at hr
    obtain ⟨p, _hp, m, _hm, hr⟩ := hr
    obtain ⟨h1, hr⟩ := mem_ite_nil hr
    obtain ⟨_h2, hr⟩ := mem_ite_nil hr
    obtain ⟨_h3, hr⟩ := mem_ite_nil hr
    obtain ⟨_h4, hr⟩ := mem_ite_nil hr
    simp only [emitRedactions, List.mem_map] at hr
    obtain ⟨pos, _hpos, rfl⟩ := hr
    simpa using h1

/-- C6 witness: a grouped Visa number passes credit-card detection with no
phone shape matching it, and a labelled phone line passes phone detection
with no credit-card shape matching it. -/
theorem c6_cross_category_exclusion_witness :
    ccPhoneSkipPatterns.any
      (fun ph => reSearchB false ph "4111-1111-1111-1111") = false ∧
    phoneCcSkipPatterns.any
      (fun cc => reSearchB false cc "Phone: 555-123-4567") = false := by
  have h1 : (Redaction.mk "Credit Card Number" "4111-1111-1111-1111" 0 0
      (Treatment.fill "black")) ∈ find_credit_card_matches cfgEn "4111-1111-1111-1111" 0 := by
    decide
  have h2 : (Redaction.mk "Phone Number" "Phone: 555-123-4567" 0 0
      (Treatment.fill "black")) ∈ find_phone_matches cfgEn "Phone: 555-123-4567" 0 := by
    decide
  exact ⟨(c6_cross_category_exclusion cfgEn "4111-1111-1111-1111" 0).1 _ h1,
         (c6_cross_category_exclusion cfgEn "Phone: 555-123-4567" 0).2 _ h2⟩

/-- C7 counterexample: `1234` is a bare short integer of four digits, yet on
the page `CVV: 1234` CVV detection matches it and emits redactions for it —
refuting the claim that every matched bare integer of one to four digits is
dropped (the source skip only covers one to three digits). -/
theorem c7_short_integer_counterexample :
    (find_cvv_matches cfgEn "CVV: 1234" 0).map (fun r => r.matchText) =
      ["1234", "1234"] := by
  decide

/-- C7 amended: in CVV detection every matched code that looks like a
4-digit calendar year (the `19xx`/`20xx` shape) and every matched code that
is a bare short integer of one to THREE digits is dropped: no emitted CVV
redaction has matched text of either shape. -/
theorem c7_cvv_suppression (config : RedactionConfig) (pageText : String) (pageNum : Nat) :
    ∀ r ∈ find_cvv_matches config pageText pageNum,
      reMatchB false yearSkipRe r.matchText = false ∧
      reMatchB false pageNumSkip3Re r.matchText = false := by
  intro r hr
  simp only [find_cvv_matches, List.mem_flatMap] at hr
  obtain ⟨p, _hp, m, _hm, hr⟩ := hr
  obtain ⟨_h1, hr⟩ := mem_ite_nil hr
  obtain ⟨h2, hr⟩ := mem_ite_nil hr
  obtain ⟨h3, hr⟩ := mem_ite_nil hr
  simp only [emitRedactions, List.mem_map] at hr
  obtain ⟨pos, _hpos, rfl⟩ := hr
  exact ⟨by simpa using h2, by simpa using h3⟩

/-- C7 amended witness: the surviving CVV code `1234` is neither year-shaped
nor a one-to-three digit integer. -/
theorem c7_cvv_suppression_witness :
    reMatchB false yearSkipRe "1234" = false ∧
    reMatchB false pageNumSkip3Re "1234" = false := by
  have hmem : (Redaction.mk "CVV/CVC Code" "1234" 5 0 (Treatment.fill "black")) ∈
      find_cvv_matches cfgEn "CVV: 1234" 0 := by decide
  exact c7_cvv_suppression cfgEn "CVV: 1234" 0 _ hmem

/-- Invariant of one category step of the verification loop: the
`found_sensitive_info` flag is raised exactly when the findings list is
nonempty. -/
theorem verifyStepCat_flagInv (pageNum : Nat) (pageText : String) (acc : VerifyAcc)
    (cat : String × List VPat) (h : acc.1 = true ↔ acc.2 ≠ []) :
    (verifyStepCat pageNum pageText acc cat).1 = true ↔
      (verifyStepCat pageNum pageText acc cat).2 ≠ [] := by
  unfold verifyStepCat
  by_cases hcm : verifyCategoryMatches pageText cat.2 ≠ []
  · simp only [if_pos hcm]
    simp
  · simp only [if_neg hcm]
    exact h

/-- The category fold preserves the flag-findings invariant. -/
theorem foldlCat_flagInv (pageNum : Nat) (pageText : String) :
    ∀ (cats : List (String × List VPat)) (acc : VerifyAcc),
      (acc.1 = true ↔ acc.2 ≠ []) →
      ((cats.foldl (verifyStepCat pageNum pageText) acc).1 = true ↔
        (cats.foldl (verifyStepCat pageNum pageText) acc).2 ≠ [])
  | [], _, h => h
  | cat :: cats, acc, h =>
    foldlCat_flagInv pageNum pageText cats _
      (verifyStepCat_flagInv pageNum pageText acc cat h)

/-- The page fold preserves the flag-findings invariant. -/
theorem foldlPage_flagInv :
    ∀ (pages : List (Nat × String)) (acc : VerifyAcc),
      (acc.1 = true ↔ acc.2 ≠ []) →
      ((pages.foldl verifyStepPage acc).1 = true ↔
        (pages.foldl verifyStepPage acc).2 ≠ [])
  | [], _, h => h
  | pg :: pages, acc, h =>
    foldlPage_flagInv pages _ (foldlCat_flagInv pg.1 pg.2 verifyCategories acc h)

/-- C4: the Verification Scanner returns success exactly when the set of
verification findings is empty: any surviving category match (after the year
and page-number skips) records a finding and forces the `False` return, and
an empty finding set is the only way the method returns `True`. -/
theorem c4_verify_success_iff_no_findings (pages : List String) :
    (verify_redaction pages).ok = true ↔ (verify_redaction pages).findings = [] := by
  have h := foldlPage_flagInv pages.enum (false, []) (by simp)
  show (!(pages.enum.foldl verifyStepPage (false, [])).1) = true ↔
      (pages.enum.foldl verifyStepPage (false, [])).2 = []
  constructor
  · intro hok
    by_contra hne
    rw [h.mpr hne] at hok
    cases hok
  · intro hnil
    cases hb : (pages.enum.foldl verifyStepPage (false, [])).1
    · rfl
    · exact absurd hnil (h.mp hb)

end PdfRedactor
